import Mathlib

/-!
Verification of the continuation/pagination, page-resolution, lazy-field,
caching, section-extraction, category-tree and rate-limit logic of the
`wikipedia` client library (wikipedia/wikipedia.py, wikipedia/exceptions.py).

Each definition is a shallow embedding of the corresponding Python function;
network responses are modelled as explicit scripts or environments supplied
to the embedded control flow, and the number of requests that would be issued
is threaded through explicitly.
-/

namespace Wikipedia

/-! ## Continuation queries: `WikipediaPage.__continued_query`

The generator merges the base parameters with the current continuation
dictionary (`last_continue`, initially empty), issues a request, stops if the
response has no `query` section, yields the fragments of the round otherwise,
stops if the response has no `continue` section, and else replaces
`last_continue` with that section and loops.

A round of the remote script is modelled by the two fields the loop inspects:
the (already extracted) fragment list of the `query` section, when present,
and the `continue` dictionary, when present. -/

/-- A single scripted response round for `__continued_query`:
`query` is the fragment list extracted for the page (absent when the response
has no `query` section), `cont` is the response's `continue` dictionary. -/
structure CQRound where
  query : Option (List String)
  cont : Option (List (String × String))
deriving DecidableEq

/-- The loop of `WikipediaPage.__continued_query`, run against a finite script
of response rounds.  Returns the fragments yielded, in order, together with
the list of continuation dictionaries sent, one per request issued (so the
length of the second component is the number of requests). -/
def continuedQueryAux : List CQRound → List (String × String) → List String × List (List (String × String))
  | [], _ => ([], [])
  | r :: rest, lastContinue =>
    match r.query with
    | none => ([], [lastContinue])
    | some frags =>
      match r.cont with
      | none => (frags, [lastContinue])
      | some c =>
        let res := continuedQueryAux rest c
        (frags ++ res.1, lastContinue :: res.2)

/-- Each call of `__continued_query` starts with `last_continue = dict()`. -/
def continuedQuery (script : List CQRound) : List String × List (List (String × String)) :=
  continuedQueryAux script []

/-- **C1.** A run of `__continued_query` starts from the empty continuation
state; over a 3-round script whose rounds carry 2, 2 and 1 fragments, the last
round omitting `continue`, it yields exactly the 5 fragments in round order
while issuing exactly 3 requests and sending exactly the continuation states
`{}`, round 1's `continue`, round 2's `continue`; a round lacking a `query`
section yields nothing and stops; after a yielding round that carries a
`continue` section the continuation state is replaced by that section. -/
theorem continuedQuery_spec :
    (∀ (a b c d e : String) (c1 c2 : List (String × String)),
      continuedQuery
        [⟨some [a, b], some c1⟩, ⟨some [c, d], some c2⟩, ⟨some [e], none⟩]
        = ([a, b, c, d, e], [[], c1, c2]) ∧
      (continuedQuery
        [⟨some [a, b], some c1⟩, ⟨some [c, d], some c2⟩, ⟨some [e], none⟩]).2.length = 3) ∧
    (∀ (cnt : Option (List (String × String))) (rest : List CQRound)
        (lc : List (String × String)),
      continuedQueryAux (⟨none, cnt⟩ :: rest) lc = ([], [lc])) ∧
    (∀ (frags : List String) (c : List (String × String)) (rest : List CQRound)
        (lc : List (String × String)),
      continuedQueryAux (⟨some frags, some c⟩ :: rest) lc
        = (frags ++ (continuedQueryAux rest c).1, lc :: (continuedQueryAux rest c).2)) := by
  refine ⟨fun a b c d e c1 c2 => ⟨rfl, rfl⟩, fun cnt rest lc => rfl, fun frags c rest lc => rfl⟩

/-! ## Page resolution: `WikipediaPage.__load` and `PageError`

`__load` issues one info/pageprops query and classifies the response:
`missing` in the page raises `PageError`; else `redirects` in the query is
handled as a redirect (recursing via `self.__init__(redirects['to'], ...)`
when `redirect=True`, raising `RedirectError` otherwise); else `pageprops`
in the page issues one further revisions request and raises
`DisambiguationError`; else the object keeps `pageid`, `title`, `fullurl`
from the response.

`PageError.__init__(self, pageid=None, *args)` stores a truthy first
positional argument in the `pageid` attribute and otherwise stores `args[0]`
as the `title` attribute (raising `IndexError` when `args` is empty). -/

/-- A page identifier: exactly one of a title or a pageid, as in
`WikipediaPage.__init__`.  Pageids are kept as the strings under which the
response's `pages` mapping is keyed. -/
inductive Ident where
  | title (t : String)
  | pageid (p : String)
deriving DecidableEq

/-- One entry of `query['redirects']`: its `from` and `to` fields. -/
structure RedirEntry where
  fromT : String
  toT : String
deriving DecidableEq

/-- One entry of `query['normalized']`: its `from` and `to` fields. -/
structure NormEntry where
  fromT : String
  toT : String
deriving DecidableEq

/-- The parts of the info/pageprops response that `__load` inspects:
the key under `query['pages']`, whether `missing` is present in the page,
whether the `disambiguation` pageprop is present, the page's `title` and
`fullurl`, and the optional `query['redirects'][0]` / `query['normalized'][0]`
entries. -/
structure LoadResp where
  pageidKey : String
  missing : Bool
  pagepropsDisambig : Bool
  pageTitle : String
  fullurl : String
  redirects : Option RedirEntry
  normalized : Option NormEntry
deriving DecidableEq

/-- The canonical resolved state kept on the object in the success branch:
`self.pageid`, `self.title`, `self.url`. -/
structure PageRecord where
  pageid : String
  title : String
  url : String
deriving DecidableEq

/-- The errors `__load` can raise. -/
inductive LoadErr where
  /-- `PageError` with its `pageid` / `title` attributes as actually set. -/
  | pageNotFound (pageid : Option String) (title : Option String)
  /-- `PageError.__init__` itself crashed with `IndexError` (falsy first
  argument and no further positional arguments). -/
  | pageErrorCrash
  | redirectError (title : String)
  | disambigError (title : String)
  /-- a failed `assert ... , ODD_ERROR_MESSAGE` -/
  | assertFail
  /-- an `AttributeError` from accessing/deleting a missing attribute -/
  | attrError
  /-- artifact of the finite model: recursion fuel exhausted -/
  | fuelOut
deriving DecidableEq

/-- `PageError.__init__(self, pageid=None, *args)` called with one positional
argument `x` (exceptions.py:32-36): when `x` is truthy it is stored in the
`pageid` attribute — even at the call sites that pass a title — and the
`title` attribute is left unset; when `x` is falsy, `args` is empty and
`args[0]` raises `IndexError`. -/
def pageErrorInit (x : String) : LoadErr :=
  if x = "" then .pageErrorCrash else .pageNotFound (some x) none

/-- `getattr(self, 'title', dflt)`: the title attribute when the identifier is
a title, `dflt` otherwise. -/
def getattrTitleOr (ident : Ident) (dflt : String) : String :=
  match ident with
  | .title t => t
  | .pageid _ => dflt

/-- The string held by the identifier. -/
def identStr : Ident → String
  | .title t => t
  | .pageid p => p

/-- The redirect-following arm of `__load` (wikipedia.py:682-699): computes
`from_title` — from `query['normalized'][0]['to']` when a `normalized` entry
exists (after asserting `normalized['from'] == self.title`), else from
`self.title` (setting it to `redirects['from']` and deleting `pageid` when the
title attribute is absent or falsy) — asserts `redirects['from'] == from_title`
and returns the new title to resolve, which is always `redirects['to']`. -/
def redirectStep (ident : Ident) (resp : LoadResp) (rd : RedirEntry) : Except LoadErr String :=
  match resp.normalized with
  | some nm =>
    match ident with
    | .title t =>
      if nm.fromT = t then
        if rd.fromT = nm.toT then .ok rd.toT else .error .assertFail
      else .error .assertFail
    | .pageid _ => .error .attrError
  | none =>
    match ident with
    | .title t =>
      if t = "" then .error .attrError
      else if rd.fromT = t then .ok rd.toT else .error .assertFail
    | .pageid _ => .ok rd.toT

/-- `WikipediaPage.__load` (wikipedia.py:650-734), run against an environment
mapping each identifier to the response its info/pageprops query returns.
The `Nat` component counts the requests issued (the disambiguation branch
issues a second, revisions request before raising).  Fuel bounds the redirect
recursion `self.__init__(redirects['to'], ...)`, which the source does not. -/
def loadAux (env : Ident → LoadResp) : Nat → Ident → Bool → Except LoadErr PageRecord × Nat
  | 0, _, _ => (.error .fuelOut, 0)
  | fuel + 1, ident, follow =>
    let resp := env ident
    if resp.missing then
      (.error (pageErrorInit (identStr ident)), 1)
    else
      match resp.redirects with
      | some rd =>
        if follow then
          match redirectStep ident resp rd with
          | .ok newTitle =>
            let res := loadAux env fuel (.title newTitle) follow
            (res.1, res.2 + 1)
          | .error e => (.error e, 1)
        else
          (.error (.redirectError (getattrTitleOr ident resp.pageTitle)), 1)
      | none =>
        if resp.pagepropsDisambig then
          (.error (.disambigError (getattrTitleOr ident resp.pageTitle)), 2)
        else
          (.ok ⟨resp.pageidKey, resp.pageTitle, resp.fullurl⟩, 1)

/-- The four classification branches of `__load`. -/
inductive LoadBranch where
  | missingB | redirectB | disambigB | recordB
deriving DecidableEq

/-- The `if`/`elif`/`elif`/`else` chain of `__load` as a classifier. -/
def classifyBranch (resp : LoadResp) : LoadBranch :=
  if resp.missing then .missingB
  else if resp.redirects.isSome then .redirectB
  else if resp.pagepropsDisambig then .disambigB
  else .recordB

/-- Unfolding lemma: a non-missing response with a redirect entry, followed
successfully, recurses on the title returned by the redirect step. -/
theorem loadAux_redirect_ok (env : Ident → LoadResp) (fuel : Nat) (ident : Ident)
    (rd : RedirEntry) (nt : String)
    (hm : (env ident).missing = false) (hr : (env ident).redirects = some rd)
    (hs : redirectStep ident (env ident) rd = .ok nt) :
    loadAux env (fuel + 1) ident true
      = ((loadAux env fuel (.title nt) true).1, (loadAux env fuel (.title nt) true).2 + 1) := by
  simp [loadAux, hm, hr, hs]

/-- Unfolding lemma: a non-missing, non-redirect, non-disambiguation response
yields the record built from the response, with one request. -/
theorem loadAux_record (env : Ident → LoadResp) (fuel : Nat) (ident : Ident) (follow : Bool)
    (hm : (env ident).missing = false) (hr : (env ident).redirects = none)
    (hd : (env ident).pagepropsDisambig = false) :
    loadAux env (fuel + 1) ident follow
      = (.ok ⟨(env ident).pageidKey, (env ident).pageTitle, (env ident).fullurl⟩, 1) := by
  simp [loadAux, hm, hr, hd]

/-- **C2.** `__load` classifies every response into exactly one of four
mutually exclusive branches, in precedence order missing → redirect →
disambiguation → record (the four `iff`s), and the outcome of each branch is
as claimed: missing raises `PageError`, a redirect is handled as a redirect
(recursion on the redirect-step title when following, `RedirectError`
otherwise), a disambiguation pageprop raises `DisambiguationError` after its
second request, and otherwise the record keeps pageid, title and url from the
response. -/
theorem load_branch_spec (env : Ident → LoadResp) (fuel : Nat) (ident : Ident) (follow : Bool) :
    (classifyBranch (env ident) = .missingB ↔ (env ident).missing = true) ∧
    (classifyBranch (env ident) = .redirectB
      ↔ (env ident).missing = false ∧ (env ident).redirects.isSome = true) ∧
    (classifyBranch (env ident) = .disambigB
      ↔ (env ident).missing = false ∧ (env ident).redirects = none
          ∧ (env ident).pagepropsDisambig = true) ∧
    (classifyBranch (env ident) = .recordB
      ↔ (env ident).missing = false ∧ (env ident).redirects = none
          ∧ (env ident).pagepropsDisambig = false) ∧
    (classifyBranch (env ident) = .missingB →
      loadAux env (fuel + 1) ident follow = (.error (pageErrorInit (identStr ident)), 1)) ∧
    (classifyBranch (env ident) = .redirectB →
      loadAux env (fuel + 1) ident false
        = (.error (.redirectError (getattrTitleOr ident (env ident).pageTitle)), 1)) ∧
    (classifyBranch (env ident) = .redirectB → ∀ rd, (env ident).redirects = some rd →
      (∀ nt, redirectStep ident (env ident) rd = .ok nt →
        loadAux env (fuel + 1) ident true
          = ((loadAux env fuel (.title nt) true).1,
             (loadAux env fuel (.title nt) true).2 + 1)) ∧
      (∀ e, redirectStep ident (env ident) rd = .error e →
        loadAux env (fuel + 1) ident true = (.error e, 1))) ∧
    (classifyBranch (env ident) = .disambigB →
      loadAux env (fuel + 1) ident follow
        = (.error (.disambigError (getattrTitleOr ident (env ident).pageTitle)), 2)) ∧
    (classifyBranch (env ident) = .recordB →
      loadAux env (fuel + 1) ident follow
        = (.ok ⟨(env ident).pageidKey, (env ident).pageTitle, (env ident).fullurl⟩, 1)) := by
  refine ⟨?_, ?_, ?_, ?_, ?_, ?_, ?_, ?_, ?_⟩ <;>
    [skip; skip; skip; skip;
     (intro h); (intro h); (intro h rd hrd); (intro h); (intro h)] <;>
    cases hm : (env ident).missing <;> cases hr : (env ident).redirects <;>
      cases hd : (env ident).pagepropsDisambig <;>
      simp_all [classifyBranch, loadAux]

/-- A response marked `missing`. -/
def respMissing : LoadResp := ⟨"1", true, false, "T", "u", none, none⟩

/-- A response carrying the `disambiguation` pageprop. -/
def respDisambig : LoadResp := ⟨"2", false, true, "T", "u", none, none⟩

/-- A plain, resolvable response. -/
def respRecord : LoadResp := ⟨"3", false, false, "T", "u", none, none⟩

/-- A response carrying a redirect entry A → B. -/
def respRedir : LoadResp := ⟨"4", false, false, "T", "u", some ⟨"A", "B"⟩, none⟩

theorem load_branch_spec_witness :
    loadAux (fun _ => respMissing) (0 + 1) (.title "A") true
      = (.error (pageErrorInit (identStr (.title "A"))), 1) ∧
    loadAux (fun _ => respRedir) (0 + 1) (.title "A") false
      = (.error (.redirectError (getattrTitleOr (.title "A") respRedir.pageTitle)), 1) ∧
    loadAux (fun _ => respRedir) (0 + 1) (.title "A") true
      = ((loadAux (fun _ => respRedir) 0 (.title "B") true).1,
         (loadAux (fun _ => respRedir) 0 (.title "B") true).2 + 1) ∧
    loadAux (fun _ => respDisambig) (0 + 1) (.title "A") true
      = (.error (.disambigError (getattrTitleOr (.title "A") respDisambig.pageTitle)), 2) ∧
    loadAux (fun _ => respRecord) (0 + 1) (.title "A") true
      = (.ok ⟨respRecord.pageidKey, respRecord.pageTitle, respRecord.fullurl⟩, 1) :=
  ⟨(load_branch_spec (fun _ => respMissing) 0 (.title "A") true).2.2.2.2.1 (by decide),
   (load_branch_spec (fun _ => respRedir) 0 (.title "A") false).2.2.2.2.2.1 (by decide),
   ((load_branch_spec (fun _ => respRedir) 0 (.title "A") true).2.2.2.2.2.2.1 (by decide)
      ⟨"A", "B"⟩ (by decide)).1 "B" rfl,
   (load_branch_spec (fun _ => respDisambig) 0 (.title "A") true).2.2.2.2.2.2.2.1 (by decide),
   (load_branch_spec (fun _ => respRecord) 0 (.title "A") true).2.2.2.2.2.2.2.2 (by decide)⟩

/-- Environment exercising the redirect/normalized interaction: the query for
"foo bar" returns both a `normalized` entry (foo bar → Foo bar) and a
`redirects` entry (Foo bar → Baz); "Baz" and "Foo bar" resolve to distinct
plain records. -/
def envC3 : Ident → LoadResp := fun i =>
  if i = .title "foo bar" then
    ⟨"9", false, false, "foo bar", "u0", some ⟨"Foo bar", "Baz"⟩, some ⟨"foo bar", "Foo bar"⟩⟩
  else if i = .title "Baz" then ⟨"10", false, false, "Baz", "uB", none, none⟩
  else if i = .title "Foo bar" then ⟨"11", false, false, "NotBaz", "uN", none, none⟩
  else ⟨"0", true, false, "", "", none, none⟩

/-- **C3 (counterexample).** With both a `normalized` mapping
(foo bar → Foo bar) and a redirect entry (Foo bar → Baz) in the response, the
resolver recurses on the redirect's `to` field "Baz" — resolution yields the
"Baz" record, not the record that resolving the normalized target "Foo bar"
yields, so the new canonical title does not prefer the normalized mapping over
the redirect's own `to` field. -/
theorem redirect_normalized_counterexample :
    (envC3 (.title "foo bar")).normalized = some ⟨"foo bar", "Foo bar"⟩ ∧
    (envC3 (.title "foo bar")).redirects = some ⟨"Foo bar", "Baz"⟩ ∧
    loadAux envC3 2 (.title "foo bar") true = (.ok ⟨"10", "Baz", "uB"⟩, 2) ∧
    loadAux envC3 1 (.title "Foo bar") true = (.ok ⟨"11", "NotBaz", "uN"⟩, 1) ∧
    PageRecord.mk "10" "Baz" "uB" ≠ PageRecord.mk "11" "NotBaz" "uN" := by
  refine ⟨rfl, rfl, rfl, rfl, by decide⟩

/-- **C3 (amended).** When a (non-missing) response carries a redirect entry
and followRedirect=true, the resolver recursively resolves the redirect's own
`to` field — a successful redirect step always returns `rd.toT`, and the
recursion re-enters classification fresh on that title; the `normalized`
mapping, when present, is preferred over the page's own title only as the
expected *source* title of the consistency assertions: for a title identifier
the step succeeds exactly when `normalized.from` matches the current title and
`redirects.from` matches `normalized.to`.  With followRedirect=false a
`RedirectError` is raised instead. -/
theorem redirect_followed_spec (env : Ident → LoadResp) (fuel : Nat) (ident : Ident)
    (rd : RedirEntry)
    (hm : (env ident).missing = false) (hr : (env ident).redirects = some rd) :
    (∀ nt, redirectStep ident (env ident) rd = .ok nt → nt = rd.toT) ∧
    (∀ nt, redirectStep ident (env ident) rd = .ok nt →
      loadAux env (fuel + 1) ident true
        = ((loadAux env fuel (.title nt) true).1,
           (loadAux env fuel (.title nt) true).2 + 1)) ∧
    (∀ nm t, (env ident).normalized = some nm → ident = .title t →
      (redirectStep ident (env ident) rd = .ok rd.toT ↔ nm.fromT = t ∧ rd.fromT = nm.toT)) ∧
    loadAux env (fuel + 1) ident false
      = (.error (.redirectError (getattrTitleOr ident (env ident).pageTitle)), 1) := by
  refine ⟨?_, ?_, ?_, ?_⟩
  · intro nt hs
    cases hn : (env ident).normalized <;> cases ident <;>
      simp_all [redirectStep] <;> split_ifs at hs <;> simp_all
  · intro nt hs
    exact loadAux_redirect_ok env fuel ident rd nt hm hr hs
  · intro nm t hn hident
    subst hident
    simp only [redirectStep, hn]
    split_ifs with h1 h2 <;> simp_all
  · simp [loadAux, hm, hr]

theorem redirect_followed_spec_witness :
    ("Baz" = (RedirEntry.mk "Foo bar" "Baz").toT) ∧
    loadAux envC3 (0 + 1) (.title "foo bar") true
      = ((loadAux envC3 0 (.title "Baz") true).1,
         (loadAux envC3 0 (.title "Baz") true).2 + 1) ∧
    (redirectStep (.title "foo bar") (envC3 (.title "foo bar")) ⟨"Foo bar", "Baz"⟩
        = .ok (RedirEntry.mk "Foo bar" "Baz").toT
      ↔ (NormEntry.mk "foo bar" "Foo bar").fromT = "foo bar"
        ∧ (RedirEntry.mk "Foo bar" "Baz").fromT = (NormEntry.mk "foo bar" "Foo bar").toT) ∧
    loadAux envC3 (0 + 1) (.title "foo bar") false
      = (.error (.redirectError
          (getattrTitleOr (.title "foo bar") (envC3 (.title "foo bar")).pageTitle)), 1) :=
  have h := redirect_followed_spec envC3 0 (.title "foo bar") ⟨"Foo bar", "Baz"⟩
    (by decide) (by decide)
  ⟨h.1 "Baz" rfl, h.2.1 "Baz" rfl,
   h.2.2.1 ⟨"foo bar", "Foo bar"⟩ "foo bar" (by decide) rfl, h.2.2.2⟩

/-- **C4.** A redirect chain of depth 2 (two successful redirect steps, then a
plain page) resolved with followRedirect=true terminates at the final
non-redirect page after exactly 3 requests; and any identifier whose
(non-missing) first response contains a redirect fails, with
followRedirect=false, with `RedirectError` after exactly one request. -/
theorem redirect_chain_depth2 :
    (∀ (env : Ident → LoadResp) (fuel : Nat) (t0 t1 t2 : String) (rd0 rd1 : RedirEntry),
      (env (.title t0)).missing = false → (env (.title t0)).redirects = some rd0 →
      redirectStep (.title t0) (env (.title t0)) rd0 = .ok t1 →
      (env (.title t1)).missing = false → (env (.title t1)).redirects = some rd1 →
      redirectStep (.title t1) (env (.title t1)) rd1 = .ok t2 →
      (env (.title t2)).missing = false → (env (.title t2)).redirects = none →
      (env (.title t2)).pagepropsDisambig = false →
      loadAux env (fuel + 3) (.title t0) true
        = (.ok ⟨(env (.title t2)).pageidKey, (env (.title t2)).pageTitle,
                (env (.title t2)).fullurl⟩, 3)) ∧
    (∀ (env : Ident → LoadResp) (fuel : Nat) (ident : Ident) (rd : RedirEntry),
      (env ident).missing = false → (env ident).redirects = some rd →
      loadAux env (fuel + 1) ident false
        = (.error (.redirectError (getattrTitleOr ident (env ident).pageTitle)), 1)) := by
  constructor
  · intro env fuel t0 t1 t2 rd0 rd1 hm0 hr0 hs0 hm1 hr1 hs1 hm2 hr2 hd2
    have e0 := loadAux_redirect_ok env (fuel + 2) (.title t0) rd0 t1 hm0 hr0 hs0
    have e1 := loadAux_redirect_ok env (fuel + 1) (.title t1) rd1 t2 hm1 hr1 hs1
    have e2 := loadAux_record env fuel (.title t2) true hm2 hr2 hd2
    have h3 : fuel + 3 = (fuel + 2) + 1 := rfl
    have h2 : fuel + 2 = (fuel + 1) + 1 := rfl
    rw [h3, e0, h2, e1, e2]
  · intro env fuel ident rd hm hr
    simp [loadAux, hm, hr]

/-- Environment with the redirect chain A → B → C, C a plain page. -/
def envChain : Ident → LoadResp := fun i =>
  if i = .title "A" then ⟨"1", false, false, "A", "uA", some ⟨"A", "B"⟩, none⟩
  else if i = .title "B" then ⟨"2", false, false, "B", "uB", some ⟨"B", "C"⟩, none⟩
  else if i = .title "C" then ⟨"3", false, false, "C", "uC", none, none⟩
  else ⟨"0", true, false, "", "", none, none⟩

theorem redirect_chain_depth2_witness :
    loadAux envChain (0 + 3) (.title "A") true
      = (.ok ⟨(envChain (.title "C")).pageidKey, (envChain (.title "C")).pageTitle,
              (envChain (.title "C")).fullurl⟩, 3) ∧
    loadAux envChain (0 + 1) (.title "A") false
      = (.error (.redirectError
          (getattrTitleOr (.title "A") (envChain (.title "A")).pageTitle)), 1) :=
  ⟨redirect_chain_depth2.1 envChain 0 "A" "B" "C" ⟨"A", "B"⟩ ⟨"B", "C"⟩ (by decide) (by decide)
      rfl (by decide) (by decide) rfl (by decide) (by decide) (by decide),
   redirect_chain_depth2.2 envChain 0 (.title "A") ⟨"A", "B"⟩ (by decide) (by decide)⟩

/-- Response marked missing, for a lookup of title "A" or pageid "42". -/
def missingResp : LoadResp := ⟨"42", true, false, "A", "uA", none, none⟩

/-- **C9.** Evaluation at the failing input: resolving title "A" whose
response is marked missing raises `PageError` with the title stored in the
*pageid* attribute and the title attribute left unset, because
`PageError.__init__`'s first positional parameter is `pageid`; resolving
pageid "42" stores the pageid in the pageid attribute, as the claim says. -/
theorem pageError_missing_fields :
    loadAux (fun _ => missingResp) 1 (.title "A") true
      = (.error (.pageNotFound (some "A") none), 1) ∧
    loadAux (fun _ => missingResp) 1 (.pageid "42") true
      = (.error (.pageNotFound (some "42") none), 1) :=
  ⟨rfl, rfl⟩

/-! ## Lazy fields of `WikipediaPage`

Every lazy property follows the pattern
`if not getattr(self, '_field', False): self._field = ...fetch...` followed by
`return self._field`: the fetch runs when the cache attribute is absent *or*
when its value is Python-falsy.  One access is modelled by the cached
attribute before the access (`none` = attribute absent), the value a fetch
would produce, and the field's Python truthiness test; it returns the value
returned, the attribute afterwards, and how many fetch episodes (each one or
more requests) ran. -/

/-- One access to a lazy property guarded by
`if not getattr(self, '_field', False)`. -/
def accessLazy {α : Type} (truthy : α → Bool) (fetch : α) (st : Option α) :
    α × Option α × Nat :=
  match st with
  | some v => if truthy v then (v, some v, 0) else (fetch, some fetch, 1)
  | none => (fetch, some fetch, 1)

/-- Python truthiness of a cached string such as `self._content`. -/
def pyTruthyString (s : String) : Bool := s ≠ ""

/-- Python truthiness of a cached list such as `self._images`. -/
def pyTruthyList (l : List String) : Bool := !l.isEmpty

/-- Python truthiness of `self._coordinates`: `None` is falsy, a (lat, lon)
pair is truthy. -/
def pyTruthyCoord (c : Option (Int × Int)) : Bool := c.isSome

/-- One access to `WikipediaPage.content` (wikipedia.py:804-834). -/
def contentAccess (fetched : String) (st : Option String) : String × Option String × Nat :=
  accessLazy pyTruthyString fetched st

/-- One access to `WikipediaPage.coordinates` (wikipedia.py:929-951). -/
def coordinatesAccess (fetched : Option (Int × Int)) (st : Option (Option (Int × Int))) :
    Option (Int × Int) × Option (Option (Int × Int)) × Nat :=
  accessLazy pyTruthyCoord fetched st

/-- One access to `WikipediaPage.images` (wikipedia.py:916-927). -/
def imagesAccess (fetched : List String) (st : Option (List String)) :
    List String × Option (List String) × Nat :=
  accessLazy pyTruthyList fetched st

/-- **C5 (counterexample).** The fetched value is cached, but the
`not getattr(self, '_field', False)` guard treats a falsy cached value as
unset: after fetching an empty image list, a `None` coordinate pair, or an
empty content string, the second access fetches again (1 fetch episode, not
0), contradicting "every subsequent access returns the cached value without
issuing any further requests, regardless of what value was fetched (including
None, empty string, or empty list)"; a truthy value is served from cache. -/
theorem lazy_field_counterexample :
    (imagesAccess [] (imagesAccess [] none).2.1).2.2 = 1 ∧
    (coordinatesAccess none (coordinatesAccess none none).2.1).2.2 = 1 ∧
    (contentAccess "" (contentAccess "" none).2.1).2.2 = 1 ∧
    (contentAccess "text" (contentAccess "text" none).2.1).2.2 = 0 := by
  decide

/-- **C5 (amended).** The first access to a lazy field fetches and caches the
value; a subsequent access returns the cached value without further fetches
when the fetched value is Python-truthy; when the fetched value is falsy
(`None`, `""`, `[]`) the guard treats the cache as unset and the next access
performs the field's request(s) again. -/
theorem lazy_field_spec {α : Type} (truthy : α → Bool) (fetch : α) :
    accessLazy truthy fetch none = (fetch, some fetch, 1) ∧
    (truthy fetch = true →
      accessLazy truthy fetch (accessLazy truthy fetch none).2.1 = (fetch, some fetch, 0)) ∧
    (truthy fetch = false →
      accessLazy truthy fetch (accessLazy truthy fetch none).2.1 = (fetch, some fetch, 1)) := by
  refine ⟨rfl, fun h => ?_, fun h => ?_⟩ <;> simp [accessLazy, h]

theorem lazy_field_spec_witness :
    contentAccess "text" none = ("text", some "text", 1) ∧
    pyTruthyString "text" = true ∧
    contentAccess "text" (contentAccess "text" none).2.1 = ("text", some "text", 0) ∧
    pyTruthyList ([] : List String) = false ∧
    imagesAccess [] (imagesAccess [] none).2.1 = ([], some [], 1) :=
  ⟨(lazy_field_spec pyTruthyString "text").1, by decide,
   (lazy_field_spec pyTruthyString "text").2.1 (by decide), by decide,
   (lazy_field_spec pyTruthyList []).2.2 (by decide)⟩

/-! ## Memoized module-level operations and `clear_cache` -/

/-- The module-level operations of wikipedia.py carrying the `@cache`
decorator. -/
inductive Op where
  | search | categorymembers | geosearch | opensearch | prefexsearch | suggest | summary
  | languages
deriving DecidableEq

/-- Modelled from the spec: the `cache` decorator lives in wikipedia/util.py,
which is not under src/; per §5/§6 it memoizes each call's result keyed by the
call's arguments, and its `clear_cache()` empties the memo table. -/
structure Memo where
  entries : List (String × String)
deriving DecidableEq

/-- Modelled from the spec: a call through the `cache` decorator returns the
memoized value when the argument key is present and otherwise computes the
result under the current configuration and stores it. -/
def cachedCall (impl : String → String) (m : Memo) (args : String) : String × Memo :=
  match m.entries.lookup args with
  | some v => (v, m)
  | none => (impl args, ⟨(args, impl args) :: m.entries⟩)

/-- The operations whose caches `clear_cache` clears (wikipedia.py:86-89),
invoked by both `set_api_url` and `set_lang`. -/
def clearedOps : List Op :=
  [.search, .suggest, .summary, .categorymembers, .geosearch, .opensearch]

/-- The operations carrying `@cache`, in source order (wikipedia.py lines
156, 206, 325, 381, 429, 470, 541, 1140). -/
def memoizedOps : List Op :=
  [.search, .categorymembers, .geosearch, .opensearch, .prefexsearch, .suggest, .summary,
   .languages]

/-- `clear_cache()`: the per-operation memo tables after clearing. -/
def clearCache (caches : Op → Memo) : Op → Memo :=
  fun op => if op ∈ clearedOps then ⟨[]⟩ else caches op

/-- Memo state after one `prefexsearch("q")` call under the old language,
whose result was "old". -/
def stalePrefex : Op → Memo :=
  fun op => if op = .prefexsearch then ⟨[("q", "old")]⟩ else ⟨[]⟩

/-- **C6 (counterexample).** `prefexsearch` carries `@cache` but is absent
from `clear_cache`'s tuple: after a language change its memo survives, and a
repeat call with identical arguments returns the pre-change cached value
"old" although the new configuration would produce "new" — so the cleared set
does not cover every memoized query operation. -/
theorem clear_cache_counterexample :
    Op.prefexsearch ∈ memoizedOps ∧ Op.prefexsearch ∉ clearedOps ∧
    clearCache stalePrefex .prefexsearch = ⟨[("q", "old")]⟩ ∧
    (cachedCall (fun _ => "new") (clearCache stalePrefex .prefexsearch) "q").1 = "old" ∧
    "old" ≠ "new" := by
  refine ⟨by decide, by decide, rfl, rfl, by decide⟩

/-- **C6 (amended).** A configuration mutation of the endpoint or language
runs `clear_cache`, which empties the memo of exactly the six operations
search, suggest, summary, categorymembers, geosearch, opensearch; for each of
those, a repeat call with identical arguments after the change recomputes
under the new configuration and cannot serve the pre-change cached value.
Operations outside that set (`prefexsearch`, `languages`) keep their memo. -/
theorem clear_cache_spec (caches : Op → Memo) (op : Op) (args : String)
    (implNew : String → String) (hop : op ∈ clearedOps) :
    clearCache caches op = ⟨[]⟩ ∧
    (cachedCall implNew (clearCache caches op) args).1 = implNew args ∧
    (∀ o, o ∉ clearedOps → clearCache caches o = caches o) ∧
    clearedOps = [.search, .suggest, .summary, .categorymembers, .geosearch, .opensearch] := by
  refine ⟨by simp [clearCache, hop], by simp [clearCache, hop, cachedCall], ?_, rfl⟩
  intro o ho
  simp [clearCache, ho]

theorem clear_cache_spec_witness :
    clearCache stalePrefex .search = ⟨[]⟩ ∧
    (cachedCall (fun _ => "new") (clearCache stalePrefex .search) "q").1
      = (fun _ => "new") "q" ∧
    (∀ o, o ∉ clearedOps → clearCache stalePrefex o = stalePrefex o) ∧
    clearedOps = [.search, .suggest, .summary, .categorymembers, .geosearch, .opensearch] :=
  clear_cache_spec stalePrefex .search "q" (fun _ => "new") (by decide)

/-! ## `WikipediaPage.section`

`section(section_title)` builds the marker `"== {0} ==".format(section_title)`,
looks it up with `str.index` (returning `None` on `ValueError`), finds the
next `"=="` from the end of the marker (falling back to the end of the
content), slices, and applies `.lstrip("=").strip()`.  Strings are modelled as
character lists. -/

/-- The whitespace set of Python `str.strip()`. -/
def pyIsSpace (c : Char) : Bool :=
  c == ' ' || c == '\t' || c == '\n' || c == '\r' || c == '\x0b' || c == '\x0c'

/-- Scan for the first position at or after offset `i` where `sub` is a
prefix of the remaining characters. -/
def findSubAux (sub : List Char) : List Char → Nat → Option Nat
  | [], i => if sub.isPrefixOf [] then some i else none
  | c :: rest, i =>
    if sub.isPrefixOf (c :: rest) then some i else findSubAux sub rest (i + 1)

/-- Python `s.index(sub, start)`: position of the first occurrence of `sub`
at or after `start`, `none` for the `ValueError` case. -/
def pyIndexFrom (s sub : List Char) (start : Nat) : Option Nat :=
  (findSubAux sub (s.drop start) 0).map (· + start)

/-- Python `s.lstrip("=")`. -/
def lstripEq (s : List Char) : List Char := s.dropWhile (· == '=')

/-- Python `s.strip()` (whitespace from both ends). -/
def pyStrip (s : List Char) : List Char :=
  ((s.dropWhile pyIsSpace).reverse.dropWhile pyIsSpace).reverse

/-- `WikipediaPage.section` (wikipedia.py:1097-1120) as a pure function of the
page content. -/
def sectionOf (content : List Char) (sectionTitle : List Char) : Option (List Char) :=
  let marker := "== ".toList ++ sectionTitle ++ " ==".toList
  match pyIndexFrom content marker 0 with
  | none => none
  | some i =>
    let index := i + marker.length
    let nextIndex := (pyIndexFrom content "==".toList index).getD content.length
    some (pyStrip (lstripEq ((content.take nextIndex).drop index)))

/-- `sub` occurs somewhere in `s` (Python `sub in s`), as a bounded scan. -/
def occursB (sub s : List Char) : Bool :=
  (List.range (s.length + 1)).any (fun i => sub.isPrefixOf (s.drop i))

theorem occursB_cons (sub : List Char) (c : Char) (rest : List Char) :
    occursB sub (c :: rest) = (sub.isPrefixOf (c :: rest) || occursB sub rest) := by
  simp [occursB, List.range_succ_eq_map, List.any_map, Function.comp_def]

theorem findSubAux_none (sub : List Char) :
    ∀ (s : List Char) (i : Nat), (findSubAux sub s i = none ↔ occursB sub s = false) := by
  intro s
  induction s with
  | nil =>
    intro i
    by_cases h : sub.isPrefixOf [] <;> simp [findSubAux, occursB, h]
  | cons c rest ih =>
    intro i
    by_cases h : sub.isPrefixOf (c :: rest) <;>
      simp [findSubAux, occursB_cons, h, ih]

/-- **C7 (counterexample).** On
`"== History ==\nabc=\n== Legacy =="` the slice between the marker and the
next `"=="` is `"\nabc=\n"`, and `.lstrip("=").strip()` yields `"abc="`: the
trailing `=` is *not* trimmed (only the left end is `=`-stripped), refuting
"with `=` and whitespace trimmed from both ends". -/
theorem section_counterexample :
    sectionOf "== History ==\nabc=\n== Legacy ==".toList "History".toList
      = some "abc=".toList ∧
    "abc=".toList ≠ "abc".toList := by
  refine ⟨rfl, by decide⟩

/-- **C7 (amended).** `section(title)` is a pure string operation on the
content: when the literal marker `== {title} ==` does not occur, the result is
the not-found sentinel `None`; otherwise it is the text between the marker and
the next `==` occurrence (or the end of content) with `=` trimmed from the
left end and whitespace trimmed from both ends — in particular
`section("History")` on `"== History ==\ntext here\n== Legacy =="` returns
`"text here"`, and `section("Nonexistent")` there returns `None`. -/
theorem section_spec (content sectionTitle : List Char)
    (h : occursB ("== ".toList ++ sectionTitle ++ " ==".toList) content = false) :
    sectionOf content sectionTitle = none ∧
    sectionOf "== History ==\ntext here\n== Legacy ==".toList "History".toList
      = some "text here".toList ∧
    sectionOf "== History ==\ntext here\n== Legacy ==".toList "Nonexistent".toList
      = none := by
  refine ⟨?_, rfl, rfl⟩
  have hn := (findSubAux_none _ content 0).mpr h
  unfold sectionOf pyIndexFrom
  rw [List.drop_zero]
  dsimp only
  rw [hn]
  rfl

theorem section_spec_witness :
    occursB ("== ".toList ++ "History".toList ++ " ==".toList) "no sections here".toList
      = false ∧
    sectionOf "no sections here".toList "History".toList = none :=
  ⟨by decide,
   (section_spec "no sections here".toList "History".toList (by decide)).1⟩

/-! ## `categorytree.__cat_tree_rec` -/

/-- What the recursive walker reads about one category: the member page
titles (`links[cat][0]`), the sub-category names (`links[cat][1]`) and the
parent categories (`categories[cat].categories`). -/
structure CatInfo where
  links : List String
  subcats : List String
  parents : List String

/-- A value of `tree[cat]` or of `tree[cat]['sub-categories'][c]`: `leafNull`
is the unexpanded `None` leaf; `expanded level links parents subcats` is a
fully built node; `fuelOut` is an artifact of the finite model marking
exhausted recursion fuel. -/
inductive CatChild where
  | leafNull : CatChild
  | expanded : Int → List String → List String → List (String × CatChild) → CatChild
  | fuelOut : CatChild

/-- `__cat_tree_rec` (wikipedia.py:276-308): builds the node for `cat` at
`level`; when `level >= depth > 0` each sub-category is recorded as an
unexpanded `None` leaf, otherwise the walker recurses into each sub-category
at `level + 1`. -/
def catTreeRec (env : String → CatInfo) : Nat → String → Int → Int → CatChild
  | 0, _, _, _ => .fuelOut
  | fuel + 1, cat, depth, level =>
    let info := env cat
    if level ≥ depth ∧ depth > 0 then
      .expanded level info.links info.parents (info.subcats.map (fun c => (c, .leafNull)))
    else
      .expanded level info.links info.parents
        (info.subcats.map (fun c => (c, catTreeRec env fuel c depth (level + 1))))

/-- `categorytree(category, depth)` for a list of root categories
(wikipedia.py:311-322): each root is built at level 0. -/
def categorytree (env : String → CatInfo) (fuel : Nat) (cats : List String) (depth : Int) :
    List (String × CatChild) :=
  cats.map (fun c => (c, catTreeRec env fuel c depth 0))

/-- The `sub-categories` mapping of a built node. -/
def childrenOf : CatChild → List (String × CatChild)
  | .expanded _ _ _ subs => subs
  | _ => []

theorem catTreeRec_ne_leafNull (env : String → CatInfo) (fuel : Nat) (cat : String)
    (depth level : Int) : catTreeRec env fuel cat depth level ≠ .leafNull := by
  cases fuel with
  | zero => simp [catTreeRec]
  | succ f =>
    simp only [catTreeRec]
    split <;> simp

/-- **C8.** With `maxDepth <= 0` the guard `level >= depth > 0` never fires:
every node recurses into each sub-category at `level + 1` and no immediate
child of any built node is a `None` leaf (unbounded expansion); with
`maxDepth > 0` a node at `level >= maxDepth` records each child sub-category
name as an unexpanded `None` leaf, while a node at `level < maxDepth` recurses
into each child at `level + 1`. -/
theorem cat_tree_depth_spec (env : String → CatInfo) (fuel : Nat) (cat : String)
    (depth level : Int) :
    (depth ≤ 0 →
      catTreeRec env (fuel + 1) cat depth level
        = .expanded level (env cat).links (env cat).parents
            ((env cat).subcats.map (fun c => (c, catTreeRec env fuel c depth (level + 1)))) ∧
      ∀ p, p ∈ childrenOf (catTreeRec env fuel cat depth level) → p.2 ≠ .leafNull) ∧
    (0 < depth → depth ≤ level →
      catTreeRec env (fuel + 1) cat depth level
        = .expanded level (env cat).links (env cat).parents
            ((env cat).subcats.map (fun c => (c, .leafNull)))) ∧
    (0 < depth → level < depth →
      catTreeRec env (fuel + 1) cat depth level
        = .expanded level (env cat).links (env cat).parents
            ((env cat).subcats.map (fun c => (c, catTreeRec env fuel c depth (level + 1))))) := by
  refine ⟨fun hd => ⟨?_, ?_⟩, fun hd hl => ?_, fun hd hl => ?_⟩
  · simp only [catTreeRec]
    rw [if_neg (by omega)]
  · intro p hp
    cases fuel with
    | zero => simp [catTreeRec, childrenOf] at hp
    | succ f =>
      simp only [catTreeRec] at hp
      rw [if_neg (by omega)] at hp
      simp only [childrenOf, List.mem_map] at hp
      obtain ⟨c, _, rfl⟩ := hp
      exact catTreeRec_ne_leafNull env f c depth _
  · simp only [catTreeRec]
    rw [if_pos (by omega)]
  · simp only [catTreeRec]
    rw [if_neg (by omega)]

/-- A two-level category environment: Root has one sub-category Sub. -/
def envCat : String → CatInfo := fun c =>
  if c = "Root" then ⟨["P1"], ["Sub"], ["Par"]⟩ else ⟨["P2"], [], ["Root"]⟩

theorem cat_tree_depth_spec_witness :
    (catTreeRec envCat (1 + 1) "Root" 0 0
      = .expanded 0 (envCat "Root").links (envCat "Root").parents
          ((envCat "Root").subcats.map (fun c => (c, catTreeRec envCat 1 c 0 (0 + 1)))) ∧
     ∀ p, p ∈ childrenOf (catTreeRec envCat 1 "Root" 0 0) → p.2 ≠ .leafNull) ∧
    catTreeRec envCat (1 + 1) "Root" 1 1
      = .expanded 1 (envCat "Root").links (envCat "Root").parents
          ((envCat "Root").subcats.map (fun c => (c, .leafNull))) ∧
    catTreeRec envCat (1 + 1) "Root" 1 0
      = .expanded 0 (envCat "Root").links (envCat "Root").parents
          ((envCat "Root").subcats.map (fun c => (c, catTreeRec envCat 1 c 1 (0 + 1)))) :=
  ⟨(cat_tree_depth_spec envCat 1 "Root" 0 0).1 (by decide),
   (cat_tree_depth_spec envCat 1 "Root" 1 1).2.1 (by decide) (by decide),
   (cat_tree_depth_spec envCat 1 "Root" 1 0).2.2 (by decide) (by decide)⟩

/-! ## `_wiki_request` rate limiting -/

/-- Outcome of one `_wiki_request` call. -/
inductive WikiReqOutcome where
  | nameError
  | response
deriving DecidableEq

/-- The rate-limit gate of `_wiki_request` (wikipedia.py:1173-1209): when rate
limiting is enabled, a last-call timestamp exists (a `datetime` is always
truthy) and `last_call + wait` is still in the future, the branch sleeps and
then iterates over the undefined name `filtered_lis`, raising `NameError`
before `SESSION.get` runs; otherwise the session request is issued.  Returns
the outcome and the number of requests that reach the remote API. -/
def wikiRequest (rateLimit : Bool) (lastCall : Option Nat) (minWait now : Nat) :
    WikiReqOutcome × Nat :=
  if rateLimit = true ∧ lastCall.isSome ∧ now < lastCall.getD 0 + minWait then
    (.nameError, 0)
  else
    (.response, 1)

/-- **C10.** Whenever rate limiting is enabled, a previous call timestamp
exists, and the minimum wait interval has not yet elapsed, `_wiki_request`
raises `NameError` in the wait branch (evaluating the undefined
`filtered_lis`) and zero requests reach the remote API. -/
theorem rate_limit_wait_nameError (t minWait now : Nat) (h : now < t + minWait) :
    wikiRequest true (some t) minWait now = (.nameError, 0) := by
  simp [wikiRequest, h]

theorem rate_limit_wait_nameError_witness :
    wikiRequest true (some 100) 50 120 = (.nameError, 0) :=
  rate_limit_wait_nameError 100 50 120 (by decide)

end Wikipedia
